import Mathlib

/-!
# Hephaestus collector runtime — verification development

Shallow embedding of the core collector runtime of the `hephaestus`
telemetry agent, together with proofs of the specified properties.

Conventions used throughout:

* `u64` counters are modelled as `ℕ`; Rust's `saturating_sub` on `u64`
  coincides with truncated subtraction on `ℕ`.  Where an unchecked `u64`
  sum may wrap in a release build, the wrap is made explicit with
  `% U64_MOD`.
* `f64` arithmetic is idealised as exact arithmetic over `ℚ`.
* `Instant` timestamps are modelled as integers (milliseconds).
* Fallible operations return `Except String _`; a Rust panic on the
  modelled path is represented as an `Except.error`.
* `HashMap<String, String>` tables are modelled as association lists with
  `List.lookup`.
-/

/-- `2^64`, the modulus of Rust `u64` arithmetic. -/
def U64_MOD : ℕ := 2 ^ 64

/-! ## `src/datasource/cpu_usage.rs` -/

namespace CpuUsageSrc

/-- Breakdown of CPU time ratios per `/proc/stat` column
(`CoreStats` in `metrics/cpu_usage.rs`, ratios are `f64`, here `ℚ`). -/
structure CoreStats where
  user : ℚ
  nice : ℚ
  system : ℚ
  idle : ℚ
  iowait : ℚ
  irq : ℚ
  softirq : ℚ
  steal : ℚ
  guest : ℚ
  guest_nice : ℚ
deriving DecidableEq, Repr

/-- `CoreStats::default()` — all ratios zero. -/
def CoreStats.default : CoreStats :=
  ⟨0, 0, 0, 0, 0, 0, 0, 0, 0, 0⟩

/-- Per-field delta `curr[i].saturating_sub(prev[i])`.  A `[u64; 10]` row is
modelled as a `List ℕ` read with `getD` at indices `0..9`. -/
def delta (curr prev : List ℕ) (i : ℕ) : ℕ :=
  curr.getD i 0 - prev.getD i 0

/-- `total_delta`: sum of the deltas of the first `CPU_TOTAL_COLUMNS = 8`
columns (User through Steal).  The `u64` sum wraps modulo `2^64` in a
release build, made explicit here. -/
def total_delta (curr prev : List ℕ) : ℕ :=
  (((List.range 8).map (delta curr prev)).sum) % U64_MOD

/-- `calculate_usage(curr, prev)` from `src/datasource/cpu_usage.rs`:
returns the derived busy ratio paired with the per-field breakdown.
If the total delta is zero, returns `(0.0, CoreStats::default())`. -/
def calculate_usage (curr prev : List ℕ) : ℚ × CoreStats :=
  if total_delta curr prev = 0 then
    (0, CoreStats.default)
  else
    let t : ℚ := (total_delta curr prev : ℚ)
    let times : CoreStats :=
      { user := (delta curr prev 0 : ℚ) / t
        nice := (delta curr prev 1 : ℚ) / t
        system := (delta curr prev 2 : ℚ) / t
        idle := (delta curr prev 3 : ℚ) / t
        iowait := (delta curr prev 4 : ℚ) / t
        irq := (delta curr prev 5 : ℚ) / t
        softirq := (delta curr prev 6 : ℚ) / t
        steal := (delta curr prev 7 : ℚ) / t
        guest := (delta curr prev 8 : ℚ) / t
        guest_nice := (delta curr prev 9 : ℚ) / t }
    let busy_percentage : ℚ := 1 - times.idle - times.iowait
    (max busy_percentage 0, times)

/-- Per-core usage entry (`CoreUsageStats` in `metrics/cpu_usage.rs`). -/
structure CoreUsageStats where
  core : ℕ
  total_usage : ℚ
  breakdown : CoreStats
deriving DecidableEq, Repr

/-- Result of one CPU usage sample (`CpuUsageStats` in `metrics/cpu_usage.rs`). -/
structure CpuUsageStats where
  total_usage : ℚ
  total_breakdown : CoreStats
  cores : List CoreUsageStats
deriving DecidableEq, Repr

/-- The rows the sample uses as its baseline: the cached measurement when
one exists, otherwise the fresh seeding read (`make_measurement`). -/
def baseline_rows (state : Option (ℤ × List (List ℕ))) (seed_read : List (List ℕ)) :
    List (List ℕ) :=
  match state with
  | some (_, m) => m
  | none => seed_read

/-- One invocation of `CpuUsage::cpu_usage` from `src/datasource/cpu_usage.rs`,
with the mutex-guarded measurement passed as explicit state.

* `state` is the content of `self.measurement` (timestamp and parsed rows);
* `seed_read` is the result of the seeding `make_measurement` call (used
  only when no baseline is cached);
* `current` is the result of the second `make_measurement` call;
* `now` is `Instant::now()` taken after the second read.

The minimum-interval sleep suspends without touching state and is not
modelled.  The row at index 0 is the aggregate "cpu" line; `&current[0]`
panics when no row was parsed, modelled as an error (the measurement is
not stored on that path, as with any early return). -/
def cpu_usage (state : Option (ℤ × List (List ℕ))) (seed_read : List (List ℕ))
    (current : List (List ℕ)) (now : ℤ) :
    Except String CpuUsageStats × Option (ℤ × List (List ℕ)) :=
  let previous := baseline_rows state seed_read
  if previous.length ≠ current.length then
    (.error "Failed to perform CPU usage measurement because of changed core count", state)
  else
    match current, previous with
    | c0 :: _, p0 :: _ =>
      let (total_usage, total_breakdown) := calculate_usage c0 p0
      let cores :=
        (((previous.zip current).drop 1).map (fun pc => calculate_usage pc.2 pc.1)).enum.map
          (fun ic => { core := ic.1, total_usage := ic.2.1, breakdown := ic.2.2 : CoreUsageStats })
      (.ok { total_usage, total_breakdown, cores }, some (now, current))
    | _, _ =>
      (.error "panic: index out of bounds", state)

end CpuUsageSrc

/-! ## `src/datasource/docker.rs` -/

namespace DockerSrc

/-- `CpuStats` from `src/datasource/docker.rs`: previous/current raw
counters kept per container. -/
structure CpuStats where
  total : ℕ
  system : ℕ
deriving DecidableEq, Repr

/-- The fragment of bollard's `ContainerCpuUsage` the code reads. -/
structure ContainerCpuUsage where
  total_usage : Option ℕ
deriving DecidableEq, Repr

/-- The fragment of bollard's `ContainerCpuStats` the code reads. -/
structure ContainerCpuStats where
  cpu_usage : Option ContainerCpuUsage
  system_cpu_usage : Option ℕ
  online_cpus : Option ℕ
deriving DecidableEq, Repr

/-- `total_cpu_usage(stats)`. -/
def total_cpu_usage (stats : ContainerCpuStats) : Option ℕ :=
  stats.cpu_usage.bind (fun u => u.total_usage)

/-- `system_cpu_usage(stats)`. -/
def system_cpu_usage (stats : ContainerCpuStats) : Option ℕ :=
  stats.system_cpu_usage

/-- `to_cpu_stats(stats)`. -/
def to_cpu_stats (stats : ContainerCpuStats) : Option CpuStats := do
  let total ← total_cpu_usage stats
  let system ← system_cpu_usage stats
  pure ⟨total, system⟩

/-- `online_cpus.unwrap_or(1) as f64`. -/
def docker_cpus (stats : ContainerCpuStats) : ℚ :=
  ((stats.online_cpus.getD 1 : ℕ) : ℚ)

/-- The `usage` value computed by `cpu_usage` once both deltas are known
(`let mut usage = 0.0; if sys_delta > 0.0 && cpu_delta > 0.0 { usage = (cpu_delta / sys_delta) * cpus; }`). -/
def usage_value (stats : ContainerCpuStats) (current previous : CpuStats) : ℚ :=
  let cpu_delta : ℚ := ((current.total - previous.total : ℕ) : ℚ)
  let sys_delta : ℚ := ((current.system - previous.system : ℕ) : ℚ)
  if 0 < sys_delta ∧ 0 < cpu_delta then cpu_delta / sys_delta * docker_cpus stats else 0

/-- `cpu_usage(container_name, container_stats, prev_measurements)` from
`src/datasource/docker.rs`.  The `HashMap` of previous measurements is an
association list looked up by container name. -/
def cpu_usage (container_name : String) (container_stats : Option ContainerCpuStats)
    (prev_measurements : List (String × CpuStats)) : Option ℚ × Option CpuStats :=
  match container_stats with
  | none => (none, none)
  | some stats =>
    match to_cpu_stats stats with
    | none => (none, none)
    | some current =>
      match prev_measurements.lookup container_name with
      | none => (none, some current)
      | some previous =>
        if current.total ≤ previous.total ∨ current.system ≤ previous.system then
          -- most probably, the container has been restarted
          (none, some current)
        else
          let usage := usage_value stats current previous
          if docker_cpus stats < usage then (none, some current)
          else (some usage, some current)

/-- The per-container store step of `DockerClient::docker_stats`:
`if let Some(measurement) = measurement { current_cpu_stats.insert(name.clone(), measurement); }`.
The map that is built becomes the baseline for the next cycle. -/
def docker_stats_insert (current_cpu_stats : List (String × CpuStats)) (name : String)
    (measurement : Option CpuStats) : List (String × CpuStats) :=
  match measurement with
  | some m => (name, m) :: current_cpu_stats
  | none => current_cpu_stats

end DockerSrc

/-! ## `src/metrics/ups.rs` — data model and sparse emission -/

namespace UpsMetrics

/-- `UpsDeviceStats` from `src/metrics/ups.rs`: optional numeric fields
projected from the raw parameter table. -/
structure UpsDeviceStats where
  device_name : String
  estimated_runtime : Option ℚ
  battery_level : Option ℚ
  load : Option ℚ
  input_voltage : Option ℚ
  output_voltage : Option ℚ
  nominal_apparent_power : Option ℚ
  nominal_real_power : Option ℚ
  apparent_power : Option ℚ
  real_power : Option ℚ
deriving DecidableEq, Repr

/-- `UpsStats` from `src/metrics/ups.rs`: the timestamped snapshot. -/
structure UpsStats where
  timestamp : ℤ
  devices : List UpsDeviceStats
deriving DecidableEq, Repr

/-- One emitted sample of a metric family: the (constant) label name
`"ups"`, the device name as the label value, and the gauge value.  The
family-level metadata (`fq_name`, `help`, gauge type) is constant per
descriptor and carries no per-entity information. -/
structure Sample where
  label_name : String
  label_value : String
  value : ℚ
deriving DecidableEq, Repr

/-- `Metrics::build_metric_family` from `src/metrics/ups.rs`: for each
device, if the extractor yields a value, emit exactly one sample labeled
`ups=<device_name>`; otherwise emit nothing for that device. -/
def build_metric_family (devices : List UpsDeviceStats)
    (extract : UpsDeviceStats → Option ℚ) : List Sample :=
  match devices with
  | [] => []
  | ups :: rest =>
    match extract ups with
    | some val => ⟨"ups", ups.device_name, val⟩ :: build_metric_family rest extract
    | none => build_metric_family rest extract

/-- The samples of a family that carry a given device name as their label
value. -/
def samples_for (samples : List Sample) (name : String) : List Sample :=
  samples.filter (fun s => decide (s.label_value = name))

end UpsMetrics

/-! ## `src/metrics/util.rs` -/

namespace MetricsUtil

/-- One labeled gauge/counter sample as produced by `gauge`/`counter` in
`src/metrics/util.rs` (the descriptor metadata is constant and omitted). -/
structure LabeledValue where
  labels : List (String × String)
  value : ℚ
deriving DecidableEq, Repr

/-- `maybe_gauge(families, desc, labels, val)` from `src/metrics/util.rs`:
pushes one sample when the optional value is present, nothing otherwise. -/
def maybe_gauge (families : List LabeledValue) (labels : List (String × String))
    (val : Option ℚ) : List LabeledValue :=
  match val with
  | some v => families ++ [⟨labels, v⟩]
  | none => families

/-- Modelled from the spec: `update_measurement_if` is imported from
`crate::metrics::util` but its definition is not among the provided
sources.  Per the spec's monotonic-replace invariant ("a new snapshot only
replaces an old one if its timestamp is not older") and the call sites
(`update_measurement_if(guard, stats, |old, new| old.timestamp < new.timestamp)`),
it stores the new measurement when none is cached or when the predicate
accepts the replacement, and keeps the old measurement otherwise. -/
def update_measurement_if {α : Type} (stored : Option α) (next : α)
    (pred : α → α → Bool) : Option α :=
  match stored with
  | none => some next
  | some old => if pred old next then some next else some old

end MetricsUtil

/-! ## Collectors caching a timestamped snapshot
(`UpsCollector::collect` in `src/metrics/ups.rs`,
`DockerCollector::collect` in `src/metrics/docker.rs`) -/

namespace Collectors

open MetricsUtil

/-- `ContainerStats` from `src/metrics/docker.rs`. -/
structure ContainerStats where
  name : String
  cpu_usage_pct : ℚ
  mem_usage_bytes : ℚ
  net_rx_bytes : ℕ
  net_tx_bytes : ℕ
deriving DecidableEq, Repr

/-- `DockerStats` from `src/metrics/docker.rs`: the timestamped snapshot. -/
structure DockerStats where
  timestamp : ℤ
  containers : List ContainerStats
deriving DecidableEq, Repr

/-- `UpsCollector::collect`: querying the data source either fails (the
cached snapshot is untouched) or yields a snapshot that is stored through
`update_measurement_if` with the strictly-newer-timestamp predicate. -/
def UpsCollector_collect (stored : Option UpsMetrics.UpsStats)
    (result : Except String UpsMetrics.UpsStats) :
    Except String Unit × Option UpsMetrics.UpsStats :=
  match result with
  | .error e => (.error e, stored)
  | .ok stats =>
    (.ok (), update_measurement_if stored stats
      (fun old new => decide (old.timestamp < new.timestamp)))

/-- `DockerCollector::collect`: same replace rule over `DockerStats`. -/
def DockerCollector_collect (stored : Option DockerStats)
    (result : Except String DockerStats) :
    Except String Unit × Option DockerStats :=
  match result with
  | .error e => (.error e, stored)
  | .ok stats =>
    (.ok (), update_measurement_if stored stats
      (fun old new => decide (old.timestamp < new.timestamp)))

end Collectors

/-! ## `src/datasource/nut.rs` — parameter projection -/

namespace NutSrc

/-- Numeric value of a digit string (most significant digit first). -/
def digitsToNat (cs : List Char) : ℕ :=
  cs.foldl (fun acc c => acc * 10 + (c.toNat - 48)) 0

/-- Unsigned numeral body: integer digits, optional `.` and fraction
digits, at least one digit overall, nothing else. -/
def parse_body (cs : List Char) : Option ℚ :=
  let (intPart, rest) := cs.span Char.isDigit
  match rest with
  | [] => if intPart.isEmpty then none else some (digitsToNat intPart : ℚ)
  | '.' :: frac =>
    if frac.all Char.isDigit ∧ (intPart ≠ [] ∨ frac ≠ []) then
      some ((digitsToNat intPart : ℚ) + (digitsToNat frac : ℚ) / (10 ^ frac.length))
    else none
  | _ => none

/-- Models the source's use of `str::parse::<f64>().ok()`, restricted to
plain decimal numerals: optional sign, integer digits, optional `.` and
fraction digits, at least one digit overall.  Exponents, `inf` and `NaN`
forms are outside the model; the result is an exact rational. -/
def parse_f64 (s : String) : Option ℚ :=
  match s.toList with
  | '-' :: rest => (parse_body rest).map (fun x => -x)
  | '+' :: rest => parse_body rest
  | cs => parse_body cs

/-- The `find` closure of `Nut::collect_device_parameters`: try the alias
keys in order, return the first raw value that is present and parses. -/
def find (params : List (String × String)) (keys : List String) : Option ℚ :=
  keys.findSome? (fun key => (params.lookup key).bind parse_f64)

/-- `Nut::collect_device_parameters(device_name, params)` from
`src/datasource/nut.rs`: projects the raw key→value table into
`UpsDeviceStats`, normalizing percent fields and deriving the power
fields from their nominal value and the load when not reported. -/
def collect_device_parameters (device_name : String)
    (params : List (String × String)) : UpsMetrics.UpsDeviceStats :=
  let as_percents : ℚ → ℚ := fun x => x / 100
  let estimated_runtime := find params ["battery.runtime", "battery.runtime.low"]
  let battery_level :=
    (find params ["battery.charge", "battery.level", "battery.charge.approx"]).map as_percents
  let load := (find params ["ups.load", "output.load"]).map as_percents
  let input_voltage := find params ["input.voltage"]
  let output_voltage := find params ["output.voltage"]
  let nominal_apparent_power := find params ["ups.power.nominal", "output.power.nominal"]
  let nominal_real_power := find params ["ups.realpower.nominal", "output.realpower.nominal"]
  let real_power :=
    match find params ["ups.realpower", "output.realpower"] with
    | some x => some x
    | none =>
      match nominal_real_power, load with
      | some nom_w, some l => if 0 < nom_w then some (nom_w * l) else none
      | _, _ => none
  let apparent_power :=
    match find params ["ups.power", "output.power"] with
    | some x => some x
    | none =>
      match nominal_apparent_power, load with
      | some nom_va, some l => if 0 < nom_va then some (nom_va * l) else none
      | _, _ => none
  { device_name, estimated_runtime, battery_level, load, input_voltage, output_voltage,
    nominal_apparent_power, nominal_real_power, apparent_power, real_power }

end NutSrc

/-! ## `src/server/handler.rs` and `src/bin/hephaestus.rs` — scrape coordination -/

namespace HandlerSrc

/-- The scrape-cache state of the coordinator: the `last_collection`
timestamp guarded by the `try_lock`ed mutex, plus a call-count probe for
`refresh_measurements` fan-outs (model instrumentation). -/
structure ScrapeState where
  last_collection : ℤ
  fan_outs : ℕ
deriving DecidableEq, Repr

/-- `Instant::now().sub(Duration::from_hours(1))` — the initial
`last_collection` value set in `src/bin/hephaestus.rs` (milliseconds). -/
def initial_last_collection (start : ℤ) : ℤ :=
  start - 3600000

/-- One complete, uncontended invocation of the `metrics` handler
(`src/server/handler.rs`): when the elapsed time since `last_collection`
exceeds the 1s TTL, `last_collection` is set to `now` and one
`refresh_measurements` fan-out runs; otherwise nothing is refreshed.
`try_lock` succeeds here because the renders of the modelled scenario are
sequential. -/
def metrics (now : ℤ) (s : ScrapeState) : ScrapeState :=
  if 1000 < now - s.last_collection then
    { last_collection := now, fan_outs := s.fan_outs + 1 }
  else
    s

/-- The atomic steps of one `metrics` invocation, in program order. -/
inductive HandlerEvent where
  | lock_acquired
  | ttl_checked
  | last_refresh_set
  | fan_out_begin
  | fan_out_end
  | lock_released
  | encode_response_run
deriving DecidableEq, Repr

/-- Index of the first occurrence of an event in a trace. -/
def firstIdx (e : HandlerEvent) : List HandlerEvent → ℕ
  | [] => 0
  | x :: xs => if x = e then 0 else firstIdx e xs + 1

/-- `a` happens before `b` in the trace. -/
def event_precedes (tr : List HandlerEvent) (a b : HandlerEvent) : Prop :=
  firstIdx a tr < firstIdx b tr

/-- The event trace of one `metrics` invocation, read off the source: the
mutex guard bound by `try_lock` in the `if let` condition lives to the end
of the `if` body, so on the stale path it is dropped only after
`refresh_measurements(&state).await` returns. -/
def metrics_event_trace (stale : Bool) : List HandlerEvent :=
  if stale then
    [.lock_acquired, .ttl_checked, .last_refresh_set, .fan_out_begin, .fan_out_end,
     .lock_released, .encode_response_run]
  else
    [.lock_acquired, .ttl_checked, .lock_released, .encode_response_run]

/-- The log record captured by
`tracing::error!(?error, "Metrics collector failed")` in
`refresh_measurements`: the fixed message and the error value.  No other
field is captured. -/
structure LogRecord where
  message : String
  error : String
deriving DecidableEq, Repr

/-- `refresh_measurements` (`src/server/handler.rs`): every collector's
`collect()` result is awaited; each error is logged and discarded.  The
first component of each pair is the probe's identity, visible to the
model only — the loop itself has no access to any collector name. -/
def refresh_measurements (results : List (String × Except String Unit)) :
    List LogRecord :=
  results.filterMap (fun r =>
    match r.2 with
    | .error e => some ⟨"Metrics collector failed", e⟩
    | .ok _ => none)

/-- The `metrics` handler's output path: the refresh logs its errors, and
the response is the encoded registry output (`encode_response`), whatever
the collector results were.  `encode_to_string(..).unwrap()` panics
exactly when encoding fails, modelled by passing the encoding result
through. -/
def metrics_response (results : List (String × Except String Unit))
    (encoded : Except String String) : List LogRecord × Except String String :=
  (refresh_measurements results, encoded)

/-- A log record mentions a string if it occurs in one of its fields. -/
def log_mentions (r : LogRecord) (s : String) : Prop :=
  s.toList <:+: r.message.toList ∨ s.toList <:+: r.error.toList

end HandlerSrc

/-! ## Theorems -/

/-- C1: CPU rate computation.  For previous per-field totals
`[0,0,0,100,0,0,0,0,0,0]` and current totals `[20,0,10,160,10,0,0,0,0,0]`,
`calculate_usage` returns a busy ratio equal to `0.3` (within `1e-9`; the
rational model gives exactly `3/10`) with breakdown `user = 0.2`,
`system = 0.1`, `idle = 0.6`, `iowait = 0.1`; and whenever the total delta
is nonzero, the busy ratio equals `1` minus the idle ratio minus the
iowait ratio, floored at `0` (the zero-total case is the degenerate path
settled by C2). -/
theorem c1_cpu_rate_computation :
    ((CpuUsageSrc.calculate_usage [20,0,10,160,10,0,0,0,0,0] [0,0,0,100,0,0,0,0,0,0]).1 = 3/10
      ∧ |(CpuUsageSrc.calculate_usage [20,0,10,160,10,0,0,0,0,0]
            [0,0,0,100,0,0,0,0,0,0]).1 - 3/10| < 1/1000000000
      ∧ (CpuUsageSrc.calculate_usage [20,0,10,160,10,0,0,0,0,0]
          [0,0,0,100,0,0,0,0,0,0]).2.user = 1/5
      ∧ (CpuUsageSrc.calculate_usage [20,0,10,160,10,0,0,0,0,0]
          [0,0,0,100,0,0,0,0,0,0]).2.system = 1/10
      ∧ (CpuUsageSrc.calculate_usage [20,0,10,160,10,0,0,0,0,0]
          [0,0,0,100,0,0,0,0,0,0]).2.idle = 3/5
      ∧ (CpuUsageSrc.calculate_usage [20,0,10,160,10,0,0,0,0,0]
          [0,0,0,100,0,0,0,0,0,0]).2.iowait = 1/10)
    ∧ ∀ curr prev, CpuUsageSrc.total_delta curr prev ≠ 0 →
        (CpuUsageSrc.calculate_usage curr prev).1
          = max (1 - (CpuUsageSrc.calculate_usage curr prev).2.idle
              - (CpuUsageSrc.calculate_usage curr prev).2.iowait) 0 := by
  constructor
  · have ht : CpuUsageSrc.total_delta [20,0,10,160,10,0,0,0,0,0]
        [0,0,0,100,0,0,0,0,0,0] = 100 := by decide
    have h0 : CpuUsageSrc.delta [20,0,10,160,10,0,0,0,0,0]
        [0,0,0,100,0,0,0,0,0,0] 0 = 20 := by decide
    have h2 : CpuUsageSrc.delta [20,0,10,160,10,0,0,0,0,0]
        [0,0,0,100,0,0,0,0,0,0] 2 = 10 := by decide
    have h3 : CpuUsageSrc.delta [20,0,10,160,10,0,0,0,0,0]
        [0,0,0,100,0,0,0,0,0,0] 3 = 60 := by decide
    have h4 : CpuUsageSrc.delta [20,0,10,160,10,0,0,0,0,0]
        [0,0,0,100,0,0,0,0,0,0] 4 = 10 := by decide
    refine ⟨?_, ?_, ?_, ?_, ?_, ?_⟩ <;>
      · simp only [CpuUsageSrc.calculate_usage, ht, h0, h2, h3, h4]
        norm_num
  · intro curr prev h
    simp [CpuUsageSrc.calculate_usage, h]

/-- Witness for C1 at the claim's own input: the nonzero-total hypothesis
holds there and the busy ratio equals the floored formula. -/
theorem c1_cpu_rate_computation_witness :
    CpuUsageSrc.total_delta [20,0,10,160,10,0,0,0,0,0] [0,0,0,100,0,0,0,0,0,0] ≠ 0
    ∧ (CpuUsageSrc.calculate_usage [20,0,10,160,10,0,0,0,0,0] [0,0,0,100,0,0,0,0,0,0]).1
        = max (1 - (CpuUsageSrc.calculate_usage [20,0,10,160,10,0,0,0,0,0]
              [0,0,0,100,0,0,0,0,0,0]).2.idle
            - (CpuUsageSrc.calculate_usage [20,0,10,160,10,0,0,0,0,0]
              [0,0,0,100,0,0,0,0,0,0]).2.iowait) 0 :=
  ⟨by decide, c1_cpu_rate_computation.2 _ _ (by decide)⟩

/-- C2: saturating delta and zero-total degeneracy.  Every per-field delta
is the saturating difference (as integers, `max (curr - prev) 0`); when
the total delta is `0`, the busy ratio is exactly `0` and the breakdown is
`CoreStats::default()`, i.e. all-zero — total functions, so no error, no
panic and no NaN; in particular previous `[200]*10`, current `[100]*10`
yields busy ratio `0`. -/
theorem c2_saturating_delta_zero_total :
    (∀ curr prev i, ((CpuUsageSrc.delta curr prev i : ℤ))
        = max ((curr.getD i 0 : ℤ) - (prev.getD i 0 : ℤ)) 0)
    ∧ (∀ curr prev, CpuUsageSrc.total_delta curr prev = 0 →
        (CpuUsageSrc.calculate_usage curr prev).1 = 0
        ∧ (CpuUsageSrc.calculate_usage curr prev).2 = CpuUsageSrc.CoreStats.default)
    ∧ CpuUsageSrc.CoreStats.default = ⟨0,0,0,0,0,0,0,0,0,0⟩
    ∧ (CpuUsageSrc.calculate_usage (List.replicate 10 100) (List.replicate 10 200)).1 = 0 := by
  refine ⟨?_, ?_, rfl, ?_⟩
  · intro curr prev i
    simp only [CpuUsageSrc.delta]
    omega
  · intro curr prev h
    constructor <;> simp [CpuUsageSrc.calculate_usage, h]
  · have h : CpuUsageSrc.total_delta (List.replicate 10 100) (List.replicate 10 200) = 0 := by
      decide
    unfold CpuUsageSrc.calculate_usage
    rw [if_pos h]

/-- Witness for C2 at the claim's own input `[200]*10` / `[100]*10`: the
zero-total hypothesis holds there and every ratio is zero. -/
theorem c2_saturating_delta_zero_total_witness :
    CpuUsageSrc.total_delta (List.replicate 10 100) (List.replicate 10 200) = 0
    ∧ (CpuUsageSrc.calculate_usage (List.replicate 10 100) (List.replicate 10 200)).1 = 0
    ∧ (CpuUsageSrc.calculate_usage (List.replicate 10 100) (List.replicate 10 200)).2
        = CpuUsageSrc.CoreStats.default :=
  ⟨by decide,
   (c2_saturating_delta_zero_total.2.1 _ _ (by decide)).1,
   (c2_saturating_delta_zero_total.2.1 _ _ (by decide)).2⟩

/-- C10 (implicit): for every pair of counter rows — in particular all
`[u64; 10]` arrays — the busy ratio returned by `calculate_usage` lies in
`[0, 1]`: the floor gives the lower bound, and the upper bound holds
because the idle and iowait ratios are non-negative. -/
theorem c10_busy_ratio_in_unit_interval :
    ∀ curr prev, 0 ≤ (CpuUsageSrc.calculate_usage curr prev).1
      ∧ (CpuUsageSrc.calculate_usage curr prev).1 ≤ 1 := by
  intro curr prev
  by_cases h : CpuUsageSrc.total_delta curr prev = 0
  · constructor <;> simp [CpuUsageSrc.calculate_usage, h]
  · have hidle : (0 : ℚ) ≤ (CpuUsageSrc.delta curr prev 3 : ℚ)
        / (CpuUsageSrc.total_delta curr prev : ℚ) :=
      div_nonneg (Nat.cast_nonneg _) (Nat.cast_nonneg _)
    have hiowait : (0 : ℚ) ≤ (CpuUsageSrc.delta curr prev 4 : ℚ)
        / (CpuUsageSrc.total_delta curr prev : ℚ) :=
      div_nonneg (Nat.cast_nonneg _) (Nat.cast_nonneg _)
    constructor
    · simp only [CpuUsageSrc.calculate_usage, if_neg h]
      exact le_max_right _ _
    · simp only [CpuUsageSrc.calculate_usage, if_neg h]
      refine max_le (by linarith) (by norm_num)

/-- C6: topology-change atomicity.  If the baseline rows (cached, or read
fresh within the same sample) and the current read have different numbers
of per-CPU rows, `cpu_usage` returns an error and the stored measurement
is left unchanged; conversely a successful sample stores the current
reading with its timestamp as the new baseline. -/
theorem c6_topology_change_atomicity :
    ∀ state seed_read current now,
      ((CpuUsageSrc.baseline_rows state seed_read).length ≠ current.length →
        (∃ e, (CpuUsageSrc.cpu_usage state seed_read current now).1 = .error e)
        ∧ (CpuUsageSrc.cpu_usage state seed_read current now).2 = state)
      ∧ (∀ stats, (CpuUsageSrc.cpu_usage state seed_read current now).1 = .ok stats →
          (CpuUsageSrc.cpu_usage state seed_read current now).2 = some (now, current)) := by
  intro state seed_read current now
  constructor
  · intro h
    have hres : CpuUsageSrc.cpu_usage state seed_read current now
        = (.error "Failed to perform CPU usage measurement because of changed core count",
           state) := by
      simp [CpuUsageSrc.cpu_usage, h]
    rw [hres]
    exact ⟨⟨_, rfl⟩, rfl⟩
  · intro stats hok
    unfold CpuUsageSrc.cpu_usage at hok ⊢
    by_cases h : (CpuUsageSrc.baseline_rows state seed_read).length ≠ current.length
    · simp [h] at hok
    · simp only [h, if_false, ite_not] at hok ⊢
      cases current with
      | nil =>
        cases hb : CpuUsageSrc.baseline_rows state seed_read with
        | nil => simp [hb] at hok
        | cons p ps => simp [hb] at hok
      | cons c cs =>
        cases hb : CpuUsageSrc.baseline_rows state seed_read with
        | nil => simp [hb] at hok
        | cons p ps => simp [hb]

/-- Witness for C6: a seeded one-row baseline against an empty current
read errors and leaves the (empty) stored state untouched, while a
successful sample over matching one-row reads stores the current rows
with the new timestamp. -/
theorem c6_topology_change_atomicity_witness :
    ((CpuUsageSrc.baseline_rows none [[0,0,0,100,0,0,0,0,0,0]]).length
        ≠ ([] : List (List ℕ)).length
      ∧ (CpuUsageSrc.cpu_usage none [[0,0,0,100,0,0,0,0,0,0]] [] 3).2 = none)
    ∧ (CpuUsageSrc.cpu_usage (some (0, [[5,0,0,0,0,0,0,0,0,0]])) [] [[5,0,0,0,0,0,0,0,0,0]] 7).2
        = some (7, [[5,0,0,0,0,0,0,0,0,0]]) :=
  ⟨⟨by decide, ((c6_topology_change_atomicity none [[0,0,0,100,0,0,0,0,0,0]] [] 3).1
      (by decide)).2⟩,
   (c6_topology_change_atomicity (some (0, [[5,0,0,0,0,0,0,0,0,0]])) []
      [[5,0,0,0,0,0,0,0,0,0]] 7).2
     ⟨0, CpuUsageSrc.CoreStats.default, []⟩ (by rfl)⟩

/-- C7: container CPU suppression with baseline advance.  For a container
whose current reading parses and that has a previous measurement, if the
new total or system counter does not exceed the previous one (restart), or
the computed usage exceeds the online CPU count, then the usage is `None`
for that cycle but the returned baseline is the current reading, and
inserting it into the cycle's measurement map makes it the stored baseline
for the next cycle. -/
theorem c7_container_cpu_suppression :
    ∀ name stats current previous prev_map (acc : List (String × DockerSrc.CpuStats)),
      DockerSrc.to_cpu_stats stats = some current →
      prev_map.lookup name = some previous →
      (current.total ≤ previous.total ∨ current.system ≤ previous.system
        ∨ DockerSrc.docker_cpus stats < DockerSrc.usage_value stats current previous) →
      DockerSrc.cpu_usage name (some stats) prev_map = (none, some current)
      ∧ (DockerSrc.docker_stats_insert acc name (some current)).lookup name = some current := by
  intro name stats current previous prev_map acc hto hlook hcond
  constructor
  · simp only [DockerSrc.cpu_usage, hto, hlook]
    by_cases hres : current.total ≤ previous.total ∨ current.system ≤ previous.system
    · rw [if_pos hres]
    · rw [if_neg hres]
      have hgt : DockerSrc.docker_cpus stats < DockerSrc.usage_value stats current previous := by
        rcases hcond with h | h | h
        · exact absurd (Or.inl h) hres
        · exact absurd (Or.inr h) hres
        · exact h
      simp only [if_pos hgt]
  · simp [DockerSrc.docker_stats_insert, List.lookup]

/-- Witness for C7: a restarted container (total fell from 200 to 100) is
suppressed while its current reading becomes the stored baseline. -/
theorem c7_container_cpu_suppression_witness :
    DockerSrc.to_cpu_stats ⟨some ⟨some 100⟩, some 1000, some 4⟩ = some ⟨100, 1000⟩
    ∧ DockerSrc.cpu_usage "web" (some ⟨some ⟨some 100⟩, some 1000, some 4⟩)
        [("web", ⟨200, 500⟩)] = (none, some ⟨100, 1000⟩)
    ∧ (DockerSrc.docker_stats_insert [] "web" (some ⟨100, 1000⟩)).lookup "web"
        = some ⟨100, 1000⟩ := by
  refine ⟨by rfl, ?_, ?_⟩
  · exact (c7_container_cpu_suppression "web" ⟨some ⟨some 100⟩, some 1000, some 4⟩ ⟨100, 1000⟩
      ⟨200, 500⟩ [("web", ⟨200, 500⟩)] [] (by rfl) (by rfl) (Or.inl (by decide))).1
  · exact (c7_container_cpu_suppression "web" ⟨some ⟨some 100⟩, some 1000, some 4⟩ ⟨100, 1000⟩
      ⟨200, 500⟩ [("web", ⟨200, 500⟩)] [] (by rfl) (by rfl) (Or.inl (by decide))).2

/-- C3: monotonic snapshot replace.  For the collectors that cache a
timestamped snapshot (UPS and Docker), a successful `collect()` keeps the
stored snapshot when the delivered one has an older timestamp, stores the
new snapshot exactly when its timestamp is strictly newer (hence never one
that is older), a failed `collect()` leaves the store untouched, and after
any two deliveries in either order the stored timestamp is the maximum of
the two — so completion order cannot move the snapshot backward. -/
theorem c3_monotonic_snapshot_replace :
    (∀ stored stats : UpsMetrics.UpsStats, stats.timestamp < stored.timestamp →
       Collectors.UpsCollector_collect (some stored) (.ok stats) = (.ok (), some stored))
    ∧ (∀ stored stats : UpsMetrics.UpsStats,
        (Collectors.UpsCollector_collect (some stored) (.ok stats)).2
          = if stored.timestamp < stats.timestamp then some stats else some stored)
    ∧ (∀ a b : UpsMetrics.UpsStats,
        ((Collectors.UpsCollector_collect
            (Collectors.UpsCollector_collect none (.ok a)).2 (.ok b)).2).map
          UpsMetrics.UpsStats.timestamp = some (max a.timestamp b.timestamp))
    ∧ (∀ stored (e : String),
        Collectors.UpsCollector_collect (some stored) (.error e) = (.error e, some stored))
    ∧ (∀ stored stats : Collectors.DockerStats, stats.timestamp < stored.timestamp →
       Collectors.DockerCollector_collect (some stored) (.ok stats) = (.ok (), some stored))
    ∧ (∀ stored stats : Collectors.DockerStats,
        (Collectors.DockerCollector_collect (some stored) (.ok stats)).2
          = if stored.timestamp < stats.timestamp then some stats else some stored)
    ∧ (∀ a b : Collectors.DockerStats,
        ((Collectors.DockerCollector_collect
            (Collectors.DockerCollector_collect none (.ok a)).2 (.ok b)).2).map
          Collectors.DockerStats.timestamp = some (max a.timestamp b.timestamp)) := by
  refine ⟨?_, ?_, ?_, ?_, ?_, ?_, ?_⟩
  · intro stored stats h
    simp [Collectors.UpsCollector_collect, MetricsUtil.update_measurement_if]
    omega
  · intro stored stats
    simp [Collectors.UpsCollector_collect, MetricsUtil.update_measurement_if]
  · intro a b
    simp only [Collectors.UpsCollector_collect, MetricsUtil.update_measurement_if]
    split_ifs with h <;> simp at h ⊢ <;> omega
  · intro stored e
    rfl
  · intro stored stats h
    simp [Collectors.DockerCollector_collect, MetricsUtil.update_measurement_if]
    omega
  · intro stored stats
    simp [Collectors.DockerCollector_collect, MetricsUtil.update_measurement_if]
  · intro a b
    simp only [Collectors.DockerCollector_collect, MetricsUtil.update_measurement_if]
    split_ifs with h <;> simp at h ⊢ <;> omega

/-- Witness for C3: a snapshot with timestamp 5 delivered after one with
timestamp 10 is already stored leaves the newer snapshot in place, for
both collectors. -/
theorem c3_monotonic_snapshot_replace_witness :
    ((5 : ℤ) < 10
      ∧ Collectors.UpsCollector_collect (some ⟨10, []⟩) (.ok ⟨5, []⟩)
          = (.ok (), some ⟨10, []⟩))
    ∧ Collectors.DockerCollector_collect (some ⟨10, []⟩) (.ok ⟨5, []⟩)
        = (.ok (), some ⟨10, []⟩) :=
  ⟨⟨by decide, c3_monotonic_snapshot_replace.1 ⟨10, []⟩ ⟨5, []⟩ (by decide)⟩,
   c3_monotonic_snapshot_replace.2.2.2.2.1 ⟨10, []⟩ ⟨5, []⟩ (by decide)⟩

/-- C8 helper: a device name that does not occur in the device list
labels no sample of the built family. -/
theorem samples_for_build_of_not_mem
    (devices : List UpsMetrics.UpsDeviceStats) (extract : UpsMetrics.UpsDeviceStats → Option ℚ)
    (name : String) (h : name ∉ devices.map (fun d => d.device_name)) :
    UpsMetrics.samples_for (UpsMetrics.build_metric_family devices extract) name = [] := by
  induction devices with
  | nil => rfl
  | cons d rest ih =>
    have hd : d.device_name ≠ name := by
      intro he
      exact h (by simp [he])
    have hrest : name ∉ rest.map (fun d => d.device_name) := by
      intro hm
      exact h (by simp [hm])
    cases he : extract d with
    | none => simpa [UpsMetrics.build_metric_family, he] using ih hrest
    | some v =>
      simp only [UpsMetrics.build_metric_family, he]
      simpa [UpsMetrics.samples_for, List.filter, hd] using ih hrest

/-- C8: sparse emission.  For every device in a snapshot (device names
distinct), a descriptor whose field extractor returns `None` for that
device contributes zero samples labeled with it, and an extractor
returning `Some v` contributes exactly one sample carrying that device's
label and the value `v` — never a fabricated sentinel; likewise
`maybe_gauge` emits nothing for `None` and exactly one labeled sample for
`Some`. -/
theorem c8_sparse_emission :
    (∀ (devices : List UpsMetrics.UpsDeviceStats)
        (extract : UpsMetrics.UpsDeviceStats → Option ℚ) u,
      u ∈ devices → (devices.map (fun d => d.device_name)).Nodup →
        (extract u = none →
          UpsMetrics.samples_for (UpsMetrics.build_metric_family devices extract)
            u.device_name = [])
        ∧ (∀ v, extract u = some v →
          UpsMetrics.samples_for (UpsMetrics.build_metric_family devices extract)
            u.device_name = [⟨"ups", u.device_name, v⟩]))
    ∧ (∀ (families : List MetricsUtil.LabeledValue) labels (v : ℚ),
        MetricsUtil.maybe_gauge families labels none = families
        ∧ MetricsUtil.maybe_gauge families labels (some v)
            = families ++ [⟨labels, v⟩]) := by
  constructor
  · intro devices extract u hmem hnodup
    induction devices with
    | nil => cases hmem
    | cons d rest ih =>
      rcases List.mem_cons.mp hmem with heq | hmem'
      · subst heq
        have hnot : u.device_name ∉ rest.map (fun d => d.device_name) :=
          (List.nodup_cons.mp hnodup).1
        constructor
        · intro hn
          simp only [UpsMetrics.build_metric_family, hn]
          exact samples_for_build_of_not_mem rest extract u.device_name hnot
        · intro v hv
          simp only [UpsMetrics.build_metric_family, hv]
          have htail := samples_for_build_of_not_mem rest extract u.device_name hnot
          simp [UpsMetrics.samples_for, List.filter] at htail ⊢
          exact htail
      · have hnodup' : (rest.map (fun d => d.device_name)).Nodup :=
          (List.nodup_cons.mp hnodup).2
        have hd0 : d.device_name ∉ rest.map (fun d => d.device_name) := by
          simpa using (List.nodup_cons.mp hnodup).1
        have hdu : d.device_name ≠ u.device_name := by
          intro he
          have hin : u.device_name ∈ rest.map (fun d => d.device_name) :=
            List.mem_map_of_mem _ hmem'
          rw [he] at hd0
          exact hd0 hin
        have hres := ih hmem' hnodup'
        constructor
        · intro hn
          cases he : extract d with
          | none =>
            simpa [UpsMetrics.build_metric_family, he] using hres.1 hn
          | some v =>
            simp only [UpsMetrics.build_metric_family, he]
            simpa [UpsMetrics.samples_for, List.filter, hdu] using hres.1 hn
        · intro v hv
          cases he : extract d with
          | none =>
            simpa [UpsMetrics.build_metric_family, he] using hres.2 v hv
          | some w =>
            simp only [UpsMetrics.build_metric_family, he]
            simpa [UpsMetrics.samples_for, List.filter, hdu] using hres.2 v hv
  · intro families labels v
    exact ⟨rfl, rfl⟩


/-- Witness for C8: with devices `a` (battery level present) and `b`
(battery level absent), the battery-level family has exactly one sample
labeled `a` and none labeled `b`. -/
theorem c8_sparse_emission_witness :
    UpsMetrics.samples_for
        (UpsMetrics.build_metric_family
          [⟨"a", none, some 1, none, none, none, none, none, none, none⟩,
           ⟨"b", none, none, none, none, none, none, none, none, none⟩]
          (fun d => d.battery_level)) "a"
      = [⟨"ups", "a", 1⟩]
    ∧ UpsMetrics.samples_for
        (UpsMetrics.build_metric_family
          [⟨"a", none, some 1, none, none, none, none, none, none, none⟩,
           ⟨"b", none, none, none, none, none, none, none, none, none⟩]
          (fun d => d.battery_level)) "b"
      = [] :=
  ⟨(c8_sparse_emission.1
      [⟨"a", none, some 1, none, none, none, none, none, none, none⟩,
       ⟨"b", none, none, none, none, none, none, none, none, none⟩]
      (fun d => d.battery_level)
      ⟨"a", none, some 1, none, none, none, none, none, none, none⟩
      (by simp) (by simp)).2 1 rfl,
   (c8_sparse_emission.1
      [⟨"a", none, some 1, none, none, none, none, none, none, none⟩,
       ⟨"b", none, none, none, none, none, none, none, none, none⟩]
      (fun d => d.battery_level)
      ⟨"b", none, none, none, none, none, none, none, none, none⟩
      (by simp) (by simp)).1 rfl⟩

/-- C9 counterexample: a collector error is logged, but the log record —
the fixed message and the error value captured by
`tracing::error!(?error, "Metrics collector failed")` — does not carry the
Probe's name: with a probe named `ups` failing with error `boom`, neither
field of the emitted record mentions `ups` (the `Collector` trait exposes
no `name()` for the loop to log). -/
theorem c9_failure_containment_counterexample :
    HandlerSrc.refresh_measurements [("ups", .error "boom")]
        = [⟨"Metrics collector failed", "boom"⟩]
    ∧ ¬ HandlerSrc.log_mentions ⟨"Metrics collector failed", "boom"⟩ "ups" := by
  constructor
  · rfl
  · intro h
    rcases h with h | h <;> revert h <;> decide

/-- C9 (amended): failure containment in the scrape.  The response of the
`metrics` operation is the encoded registry output whatever the collector
results were (a failed `collect()` never fails the render; the only fatal
path is an encoding error, passed through); every failed collector
produces exactly one log record, each carrying the error value (not the
Probe's name), and all collectors are processed. -/
theorem c9_failure_containment :
    (∀ (results : List (String × Except String Unit)) (encoded : Except String String),
       (HandlerSrc.metrics_response results encoded).2 = encoded)
    ∧ (∀ results, (HandlerSrc.refresh_measurements results).length
        = (results.filter (fun r => match r.2 with | .error _ => true | .ok _ => false)).length)
    ∧ (∀ results name e, (name, Except.error e) ∈ results →
        (⟨"Metrics collector failed", e⟩ : HandlerSrc.LogRecord)
          ∈ HandlerSrc.refresh_measurements results) := by
  refine ⟨fun _ _ => rfl, ?_, ?_⟩
  · intro results
    induction results with
    | nil => rfl
    | cons r rest ih =>
      cases hr : r.2 with
      | error e =>
        simp [HandlerSrc.refresh_measurements, List.filter, hr] at ih ⊢
        exact ih
      | ok u =>
        simp [HandlerSrc.refresh_measurements, List.filter, hr] at ih ⊢
        exact ih
  · intro results name e hmem
    unfold HandlerSrc.refresh_measurements
    exact List.mem_filterMap.mpr ⟨(name, Except.error e), hmem, rfl⟩

/-- Witness for C9: with the `ups` probe failing with `boom`, the render
still returns the encoded output and the error is logged. -/
theorem c9_failure_containment_witness :
    (HandlerSrc.metrics_response [("ups", .error "boom")] (.ok "out")).2 = .ok "out"
    ∧ (⟨"Metrics collector failed", "boom"⟩ : HandlerSrc.LogRecord)
        ∈ HandlerSrc.refresh_measurements [("ups", .error "boom")] :=
  ⟨c9_failure_containment.1 [("ups", .error "boom")] (.ok "out"),
   c9_failure_containment.2.2 [("ups", .error "boom")] "ups" "boom" (by simp)⟩

/-- C4 counterexample: the claim that the scrape-cache lock is released
before the fan-out proceeds is false in the code.  The guard bound by
`try_lock` in the `if let` condition of `metrics` lives to the end of the
`if` body, so in the stale-path trace the fan-out begins while the lock is
still held: `lock_released` does not precede `fan_out_begin`. -/
theorem c4_ttl_coalescing_counterexample :
    ¬ HandlerSrc.event_precedes (HandlerSrc.metrics_event_trace true)
        .lock_released .fan_out_begin := by
  simp [HandlerSrc.event_precedes, HandlerSrc.metrics_event_trace, HandlerSrc.firstIdx]

/-- C4 (amended): TTL-gated coalescing of refreshes.  On the stale path,
`last_refresh` is set to now before the collection fan-out begins, and the
scrape-cache lock is held across the fan-out and released only after it
completes (not before); two renders issued 500ms apart with the 1s TTL
trigger exactly one fan-out; and because the timestamp starts one hour in
the past, the first render always triggers a fan-out. -/
theorem c4_ttl_coalescing :
    (HandlerSrc.event_precedes (HandlerSrc.metrics_event_trace true)
        .last_refresh_set .fan_out_begin
      ∧ HandlerSrc.event_precedes (HandlerSrc.metrics_event_trace true)
          .fan_out_end .lock_released)
    ∧ (∀ t : ℤ,
        (HandlerSrc.metrics (t + 500)
          (HandlerSrc.metrics t ⟨HandlerSrc.initial_last_collection t, 0⟩)).fan_outs = 1)
    ∧ (∀ t now : ℤ, t ≤ now →
        (HandlerSrc.metrics now ⟨HandlerSrc.initial_last_collection t, 0⟩).fan_outs = 1) := by
  refine ⟨⟨?_, ?_⟩, ?_, ?_⟩
  · simp [HandlerSrc.event_precedes, HandlerSrc.metrics_event_trace, HandlerSrc.firstIdx]
  · simp [HandlerSrc.event_precedes, HandlerSrc.metrics_event_trace, HandlerSrc.firstIdx]
  · intro t
    have h1 : HandlerSrc.metrics t ⟨HandlerSrc.initial_last_collection t, 0⟩
        = ⟨t, 1⟩ := by
      unfold HandlerSrc.metrics HandlerSrc.initial_last_collection
      rw [if_pos (show _ by simp)]
    rw [h1]
    unfold HandlerSrc.metrics
    rw [if_neg (show _ by simp)]
  · intro t now h
    unfold HandlerSrc.metrics HandlerSrc.initial_last_collection
    rw [if_pos (show _ by simp; omega)]

/-- Witness for C4: the very first render (at the start instant itself)
triggers exactly one fan-out. -/
theorem c4_ttl_coalescing_witness :
    (0 : ℤ) ≤ 0
    ∧ (HandlerSrc.metrics 0 ⟨HandlerSrc.initial_last_collection 0, 0⟩).fan_outs = 1 :=
  ⟨le_refl 0, c4_ttl_coalescing.2.2 0 0 (le_refl 0)⟩

/-- C5: UPS fallback derivation.  Projecting
`{battery.charge: "80", ups.load: "50", ups.realpower.nominal: "1000"}`
(no `ups.realpower`) yields `battery_level = 0.8`, `load = 0.5` and
`real_power = 500`; in general `real_power` is the explicit reading when
one of its alias keys parses, otherwise `nominal_real_power` times the
normalized load when both are present and the nominal value is positive,
the same chain holds for `apparent_power`, and the percent-valued fields
`battery_level` and `load` are the raw percentage divided by 100. -/
theorem c5_ups_fallback_derivation :
    ((NutSrc.collect_device_parameters "apc"
        [("battery.charge","80"),("ups.load","50"),("ups.realpower.nominal","1000")]).battery_level
          = some (4/5)
      ∧ (NutSrc.collect_device_parameters "apc"
          [("battery.charge","80"),("ups.load","50"),("ups.realpower.nominal","1000")]).load
          = some (1/2)
      ∧ (NutSrc.collect_device_parameters "apc"
          [("battery.charge","80"),("ups.load","50"),("ups.realpower.nominal","1000")]).real_power
          = some 500)
    ∧ (∀ name params x, NutSrc.find params ["ups.realpower", "output.realpower"] = some x →
        (NutSrc.collect_device_parameters name params).real_power = some x)
    ∧ (∀ name params nom l,
        NutSrc.find params ["ups.realpower", "output.realpower"] = none →
        NutSrc.find params ["ups.realpower.nominal", "output.realpower.nominal"] = some nom →
        NutSrc.find params ["ups.load", "output.load"] = some l →
        0 < nom →
        (NutSrc.collect_device_parameters name params).real_power = some (nom * (l / 100)))
    ∧ (∀ name params x, NutSrc.find params ["ups.power", "output.power"] = some x →
        (NutSrc.collect_device_parameters name params).apparent_power = some x)
    ∧ (∀ name params nom l,
        NutSrc.find params ["ups.power", "output.power"] = none →
        NutSrc.find params ["ups.power.nominal", "output.power.nominal"] = some nom →
        NutSrc.find params ["ups.load", "output.load"] = some l →
        0 < nom →
        (NutSrc.collect_device_parameters name params).apparent_power = some (nom * (l / 100)))
    ∧ (∀ name params,
        (NutSrc.collect_device_parameters name params).battery_level
          = (NutSrc.find params
              ["battery.charge", "battery.level", "battery.charge.approx"]).map (fun x => x / 100)
        ∧ (NutSrc.collect_device_parameters name params).load
          = (NutSrc.find params ["ups.load", "output.load"]).map (fun x => x / 100)) := by
  refine ⟨?_, ?_, ?_, ?_, ?_, ?_⟩
  · have hb : NutSrc.find [("battery.charge","80"),("ups.load","50"),("ups.realpower.nominal","1000")]
        ["battery.charge", "battery.level", "battery.charge.approx"] = some 80 := rfl
    have hl : NutSrc.find [("battery.charge","80"),("ups.load","50"),("ups.realpower.nominal","1000")]
        ["ups.load", "output.load"] = some 50 := rfl
    have hrp : NutSrc.find [("battery.charge","80"),("ups.load","50"),("ups.realpower.nominal","1000")]
        ["ups.realpower", "output.realpower"] = none := rfl
    have hnr : NutSrc.find [("battery.charge","80"),("ups.load","50"),("ups.realpower.nominal","1000")]
        ["ups.realpower.nominal", "output.realpower.nominal"] = some 1000 := rfl
    refine ⟨?_, ?_, ?_⟩ <;>
      · simp only [NutSrc.collect_device_parameters, hb, hl, hrp, hnr, Option.map_some']
        norm_num
  · intro name params x h
    simp only [NutSrc.collect_device_parameters, h]
  · intro name params nom l hrp hnr hl hpos
    simp only [NutSrc.collect_device_parameters, hrp, hnr, hl, Option.map_some']
    rw [if_pos hpos]
  · intro name params x h
    simp only [NutSrc.collect_device_parameters, h]
  · intro name params nom l hap hnap hl hpos
    simp only [NutSrc.collect_device_parameters, hap, hnap, hl, Option.map_some']
    rw [if_pos hpos]
  · intro name params
    exact ⟨rfl, rfl⟩


/-- Witness for C5: an explicit `ups.realpower` reading of 250 wins over
any fallback, and on the raw table of the claim the fallback derivation
produces `1000 * (50/100)`. -/
theorem c5_ups_fallback_derivation_witness :
    (NutSrc.collect_device_parameters "apc" [("ups.realpower", "250")]).real_power = some 250
    ∧ (NutSrc.collect_device_parameters "apc"
        [("battery.charge","80"),("ups.load","50"),("ups.realpower.nominal","1000")]).real_power
        = some (1000 * (50 / 100)) :=
  ⟨c5_ups_fallback_derivation.2.1 "apc" [("ups.realpower", "250")] 250 rfl,
   c5_ups_fallback_derivation.2.2.1 "apc"
     [("battery.charge","80"),("ups.load","50"),("ups.realpower.nominal","1000")]
     1000 50 rfl rfl rfl (by decide)⟩
